import Mathlib

/-!
The p2p-Network-with-Node development: the peer registry, the message router and the gossip handler

A shallow embedding of `src/p2p-network/p2p-server.js` (class `P2PServer`) and of the
`/send` route of `src/app/routes.js`.

Conventions of the embedding

* Peer identifiers and addresses are JavaScript strings; `===` on them is value equality.
* `uuid3` (package `uuid/v3`) is an external name-based hash: every function that calls it
  takes it as a parameter `uuid3 : String → String`.
* The registry file `./databases/<UUID>/peers.json` is the field `database`
  (`none`: no database directory yet); a read of a missing file throws.
* `socket.send` is the primitive of the `ws` library: the frame handed to it is recorded,
  in order, in the field `wire`, together with the socket it was handed to.
* A handler runs to completion before the next event is taken (one event loop); the
  one-second `setTimeout`s that separate load and mutation are sequencing only.
-/

namespace P2PNetwork

/-! ## Data model -/

/-- One record `{UUID, URL}` of the peers database. -/
structure PeerRecord where
  UUID : String
  URL : String
  deriving DecidableEq, Repr

/-- The `readyState` of a `ws` socket (`ws.CONNECTING = 0`, `ws.OPEN = 1`, ...). -/
inductive ReadyState where
  | CONNECTING
  | OPEN
  | CLOSING
  | CLOSED
  deriving DecidableEq, Repr

/-- A `ws` socket object: its identity and its current `readyState`. -/
structure WebSocket where
  handle : Nat
  readyState : ReadyState
  deriving DecidableEq, Repr

/-- An element `{UUID: ..., socket: ...}` of `this.sockets`. -/
structure SocketEntry where
  UUID : String
  socket : WebSocket
  deriving DecidableEq, Repr

/-- An element `{recipient, message}` of `this.sentMessages`. -/
structure SentMessage where
  recipient : String
  message : String
  deriving DecidableEq, Repr

/-- An element `{sender, message}` of `this.receivedMessages`. -/
structure ReceivedMessage where
  sender : String
  message : String
  deriving DecidableEq, Repr

/-- The JSON records exchanged over a socket, by their `type` field. -/
inductive Frame where
  | TARGET_CONNECTION (remote_UUID remoteURL : String)
  | CONNECTION (remote_UUID remoteURL : String)
  | PEERS_DATABASE (peers : List PeerRecord)
  | NEW_PEER (peer : PeerRecord)
  | RECONNECTED_PEER (peer : PeerRecord)
  | ADMITTANCE
  | MESSAGE (sender message : String)
  deriving DecidableEq, Repr

/-- What the `open` callback of an outbound socket sends first. -/
inductive Greeting where
  | TARGET_CONNECTION
  | ADMITTANCE
  deriving DecidableEq, Repr

/-- An outbound socket requested with `new ws(URL)` whose `open` event is still pending;
`UUID` is the identifier its `open` callback will store it under. -/
structure Dial where
  URL : String
  UUID : String
  greeting : Greeting
  deriving DecidableEq, Repr

/-- Exceptions raised by the JavaScript code. -/
inductive JsError where
  /-- `fs.readFile` / `fs.mkdir` failed and the callback rethrows (`if (err) throw err`). -/
  | fsError
  /-- A call of something that is not a function. -/
  | typeError
  deriving DecidableEq, Repr

/-- The fields of a `P2PServer` instance (`URL`, `UUID`, `peers`, `sockets`,
`receivedMessages`, `sentMessages`) together with what it acts on: the registry file
(`database`), the frames handed to `socket.send` (`wire`, oldest first) and the outbound
sockets requested with `new ws(...)` (`dials`, oldest first). -/
structure P2PServer where
  URL : String
  UUID : String
  peers : List PeerRecord
  sockets : List SocketEntry
  receivedMessages : List ReceivedMessage
  sentMessages : List SentMessage
  database : Option (List PeerRecord)
  wire : List (WebSocket × Frame)
  dials : List Dial
  deriving DecidableEq, Repr

/-! ## Strings -/

/-- `String.prototype.replace(pattern, replacement)` with a string pattern, on the list of
characters: only the first occurrence of `pattern` is replaced. -/
def replaceChars (pattern replacement : List Char) : List Char → List Char
  | [] => if pattern = [] then replacement else []
  | c :: cs =>
    if pattern <+: c :: cs then replacement ++ (c :: cs).drop pattern.length
    else c :: replaceChars pattern replacement cs

/-- The JavaScript call `str.replace(pattern, replacement)` for a string `pattern` and a
`replacement` without `$`. -/
def jsReplace (str pattern replacement : String) : String :=
  ⟨replaceChars pattern.data replacement.data str.data⟩

/-! ## Database functionalities -/

/-- `writeOnDatabase(path, data, callback)` of `utils.js`: overwrites the registry file. -/
def writeOnDatabase (s : P2PServer) (data : List PeerRecord) : P2PServer :=
  { s with database := some data }

/-- `createPeersDatabase(data, callback)`: `fs.mkdir` fails when the directory exists,
otherwise the file is written. `this.peers` is not touched. -/
def createPeersDatabase (s : P2PServer) (data : List PeerRecord) : Except JsError P2PServer :=
  match s.database with
  | some _ => .error .fsError
  | none => .ok (writeOnDatabase s data)

/-- `loadPeersDatabase(callback)`: `this.peers` becomes the content of the registry file;
throws when the file cannot be read. -/
def loadPeersDatabase (s : P2PServer) : Except JsError P2PServer :=
  match s.database with
  | none => .error .fsError
  | some stored => .ok { s with peers := stored }

/-- The loop of `updatePeersDatabase`:
`data.forEach(x => { if (!this.peers.some(peer => peer.UUID === x.UUID)) this.peers.push(x) })`. -/
def storeNonRecorded (peers data : List PeerRecord) : List PeerRecord :=
  data.foldl
    (fun peers x => if !(peers.any (fun peer => peer.UUID == x.UUID)) then peers ++ [x] else peers)
    peers

/-- `updatePeersDatabase(data, callback)`: reload, store the non recorded entries, save. -/
def updatePeersDatabase (s : P2PServer) (data : List PeerRecord) : Except JsError P2PServer :=
  match loadPeersDatabase s with
  | .error e => .error e
  | .ok s1 =>
    let s2 := { s1 with peers := storeNonRecorded s1.peers data }
    .ok (writeOnDatabase s2 s2.peers)

/-! ## Construction -/

/-- The constructor of `P2PServer`. `ADDRESS` and `P2P_PORT` come from `../config`; the
registry file found on disk is `database`. -/
def construct (uuid3 : String → String) (ADDRESS P2P_PORT : String)
    (database : Option (List PeerRecord)) : P2PServer :=
  let URL := jsReplace ("ws://" ++ ADDRESS ++ ":" ++ P2P_PORT) "localhost" "127.0.0.1"
  { URL := URL
    UUID := uuid3 URL
    peers := []
    sockets := []
    receivedMessages := []
    sentMessages := []
    database := database
    wire := []
    dials := [] }

/-! ## Socket message actions -/

/-- The call `socket.send(JSON.stringify(frame))`. -/
def socketSend (s : P2PServer) (socket : WebSocket) (frame : Frame) : P2PServer :=
  { s with wire := s.wire ++ [(socket, frame)] }

/-- `send_TARGET_CONNECTION(socket)`. -/
def send_TARGET_CONNECTION (s : P2PServer) (socket : WebSocket) : P2PServer :=
  socketSend s socket (.TARGET_CONNECTION s.UUID s.URL)

/-- `send_CONNECTION(socket)`. -/
def send_CONNECTION (s : P2PServer) (socket : WebSocket) : P2PServer :=
  socketSend s socket (.CONNECTION s.UUID s.URL)

/-- `send_PEERS_DATABASE(socket)`. -/
def send_PEERS_DATABASE (s : P2PServer) (socket : WebSocket) : P2PServer :=
  socketSend s socket (.PEERS_DATABASE s.peers)

/-- `send_NEW_PEER(socket, peer)`. -/
def send_NEW_PEER (s : P2PServer) (socket : WebSocket) (peer : PeerRecord) : P2PServer :=
  socketSend s socket (.NEW_PEER peer)

/-- `send_RECONNECTED_PEER(socket, peer)`. -/
def send_RECONNECTED_PEER (s : P2PServer) (socket : WebSocket) (peer : PeerRecord) :
    P2PServer :=
  socketSend s socket (.RECONNECTED_PEER peer)

/-- `send_ADMITTANCE(socket)`. -/
def send_ADMITTANCE (s : P2PServer) (socket : WebSocket) : P2PServer :=
  socketSend s socket .ADMITTANCE

/-! ## Broadcasting -/

/-- `broadcastNewPeer(peer, callback)`, up to the call of `callback`. -/
def broadcastNewPeer (s : P2PServer) (peer : PeerRecord) : P2PServer :=
  s.sockets.foldl
    (fun s x => if x.socket.readyState = .OPEN then send_NEW_PEER s x.socket peer else s) s

/-- `broadcastReconnectedPeer(peer, callback)`, up to the call of `callback`. -/
def broadcastReconnectedPeer (s : P2PServer) (peer : PeerRecord) : P2PServer :=
  s.sockets.foldl
    (fun s x => if x.socket.readyState = .OPEN then send_RECONNECTED_PEER s x.socket peer else s)
    s

/-! ## Open sockets functionalities -/

/-- `getOpenSockets()`. -/
def getOpenSockets (s : P2PServer) : List SocketEntry :=
  s.sockets.filter (fun x => x.socket.readyState = .OPEN)

/-- `findsocket_by_URL(URL)`: the first element of `this.sockets` stored under the
identifier of `URL`, or `undefined` (here `none`). The result is the element
`{UUID, socket}`, not the `ws` socket inside it. -/
def findsocket_by_URL (uuid3 : String → String) (s : P2PServer) (URL : String) :
    Option SocketEntry :=
  s.sockets.find? (fun x => x.UUID == uuid3 URL)

/-- The property read `x.readyState` on an element `x = {UUID: ..., socket: ...}` of
`this.sockets`. Such an element has the properties `UUID` and `socket` only, so the read
gives `undefined` (here `none`); the state of the connection is `x.socket.readyState`. -/
def SocketEntry.readyState (_x : SocketEntry) : Option ReadyState :=
  none

/-- `getOnlinePeers()`. The constant `socket` of the source is the result of
`findsocket_by_URL`, and the test is `socket && socket.readyState === ws.OPEN`. -/
def getOnlinePeers (uuid3 : String → String) (s : P2PServer) : List PeerRecord :=
  s.peers.foldl
    (fun onlinePeers peer =>
      match findsocket_by_URL uuid3 s peer.URL with
      | none => onlinePeers
      | some socket =>
        if socket.readyState = some .OPEN then onlinePeers ++ [peer] else onlinePeers)
    [{ UUID := s.UUID, URL := s.URL }]

/-- The call `this.find_opensocket_by_URL(recipient_URL)` made by `send_MESSAGE`. The class
defines `getOpenSockets` and `findsocket_by_URL` but no member of this name, so
`this.find_opensocket_by_URL` is `undefined` and calling it raises a `TypeError`. -/
def find_opensocket_by_URL (_s : P2PServer) (_URL : String) :
    Except JsError (Option SocketEntry) :=
  .error .typeError

/-- `send_MESSAGE(recipientURL, message)`: the returned string and the state after it. -/
def send_MESSAGE (uuid3 : String → String) (s : P2PServer) (recipientURL message : String) :
    Except JsError (String × P2PServer) :=
  let recipient_URL := jsReplace recipientURL "localhost" "127.0.0.1"
  let recipient_UUID := uuid3 recipient_URL
  if s.peers.any (fun peer => peer.UUID == recipient_UUID) then
    match find_opensocket_by_URL s recipient_URL with
    | .error e => .error e
    | .ok none => .ok ("NOT_ONLINE", s)
    | .ok (some recipient) =>
      let s1 := socketSend s recipient.socket (.MESSAGE s.URL message)
      let s2 :=
        { s1 with
          sentMessages := { recipient := recipientURL, message := message } :: s1.sentMessages }
      .ok ("SUCCESS", s2)
  else .ok ("NON_EXISTENT", s)

/-! ## Socket message handler -/

/-- The listener that `messageHandler(socket)` attaches to `socket`, applied to one
received record `data`. A record of type `CONNECTION` matches no `case`. -/
def messageHandler (s : P2PServer) (socket : WebSocket) (data : Frame) :
    Except JsError P2PServer :=
  match data with
  | .TARGET_CONNECTION remote_UUID remoteURL =>
    match loadPeersDatabase s with
    | .error e => .error e
    | .ok s1 =>
      if s1.peers.any (fun peer => peer.UUID == remote_UUID) then
        let s2 := send_PEERS_DATABASE s1 socket
        let s3 := { s2 with sockets := s2.sockets ++ [{ UUID := remote_UUID, socket := socket }] }
        let s4 := broadcastReconnectedPeer s3 { UUID := remote_UUID, URL := remoteURL }
        .ok { s4 with sockets := s4.sockets ++ [{ UUID := remote_UUID, socket := socket }] }
      else
        match updatePeersDatabase s1 [{ UUID := remote_UUID, URL := remoteURL }] with
        | .error e => .error e
        | .ok s2 =>
          let s3 := send_PEERS_DATABASE s2 socket
          let s4 := broadcastNewPeer s3 { UUID := remote_UUID, URL := remoteURL }
          .ok { s4 with sockets := s4.sockets ++ [{ UUID := remote_UUID, socket := socket }] }
  | .PEERS_DATABASE peers =>
    match s.database with
    | some _ => updatePeersDatabase s peers
    | none => createPeersDatabase s peers
  | .NEW_PEER peer =>
    match updatePeersDatabase s [peer] with
    | .error e => .error e
    | .ok s1 =>
      .ok { s1 with dials := s1.dials ++ [{ URL := peer.URL, UUID := peer.UUID, greeting := .ADMITTANCE }] }
  | .RECONNECTED_PEER peer =>
    .ok { s with dials := s.dials ++ [{ URL := peer.URL, UUID := peer.UUID, greeting := .ADMITTANCE }] }
  | .ADMITTANCE => .ok s
  | .MESSAGE sender message =>
    .ok { s with receivedMessages := { sender := sender, message := message } :: s.receivedMessages }
  | .CONNECTION _ _ => .ok s

/-! ## The route `POST /send` of `routes.js` -/

/-- The handler of `router.post("/send", ...)`: the response body and the state after it. -/
def postSend (uuid3 : String → String) (s : P2PServer) (recipientURL message : String) :
    Except JsError (String × P2PServer) :=
  if s.URL == "ws://" ++ recipientURL then .ok ("FAILED_TO_DEPART", s)
  else send_MESSAGE uuid3 s ("ws://" ++ recipientURL) message

/-! ## Bootstrap reconnection (`utils.js` and `connect_to_online_peers`) -/

/-- `String.prototype.split(separator)` for a one-character separator, on the list of
characters. -/
def splitChars (separator : Char) : List Char → List (List Char)
  | [] => [[]]
  | c :: cs =>
    if c = separator then [] :: splitChars separator cs
    else
      match splitChars separator cs with
      | [] => [[c]]
      | part :: parts => (c :: part) :: parts

/-- The JavaScript call `str.split(separator)` for a one-character `separator`. -/
def jsSplit (str : String) (separator : Char) : List String :=
  (splitChars separator str.data).map String.mk

/-- `extract_ADDRESS_and_PORT(URL)` of `utils.js`: the protocol is discarded and the rest is
split at `:`. -/
def extract_ADDRESS_and_PORT (URL : String) : List String :=
  let ADDRESS_PORT :=
    if "//".data <:+: URL.data then (jsSplit URL '/').getD 2 "" else (jsSplit URL '/').getD 0 ""
  jsSplit ADDRESS_PORT ':'

/-- `checkActivity(URL, callback)` of `utils.js`: the testing server is told to listen on the
extracted address and port, and `callback(URL)` is called exactly when that fails with
`EADDRINUSE`. The outcome of the bind is given by `inUse`; the result is the argument the
callback is called with, if it is called. -/
def checkActivity (inUse : List String → Bool) (URL : String) : Option String :=
  if inUse (extract_ADDRESS_and_PORT URL) then some URL else none

/-- `connect_to_online_peers()`: after the reload, every recorded peer whose address is in
use and differs from `this.URL` gets an outbound socket `new ws(URL)`. -/
def connect_to_online_peers (uuid3 : String → String) (inUse : List String → Bool)
    (s : P2PServer) : Except JsError P2PServer :=
  match loadPeersDatabase s with
  | .error e => .error e
  | .ok s1 =>
    .ok (s1.peers.foldl
      (fun s peer =>
        match checkActivity inUse peer.URL with
        | none => s
        | some URL =>
          if URL != s.URL then
            { s with
              dials := s.dials ++ [{ URL := URL, UUID := uuid3 URL, greeting := .TARGET_CONNECTION }] }
          else s)
      s1)

/-- The `open` callback of an outbound socket requested as `d`: the socket is stored under
`d.UUID` and the greeting is sent over it. -/
def socketOpened (s : P2PServer) (d : Dial) (socket : WebSocket) : P2PServer :=
  let s1 :=
    { s with
      dials := s.dials.erase d
      sockets := s.sockets ++ [{ UUID := d.UUID, socket := socket }] }
  match d.greeting with
  | .TARGET_CONNECTION => send_TARGET_CONNECTION s1 socket
  | .ADMITTANCE => send_ADMITTANCE s1 socket

/-! ## Protocol steps -/

/-- The events a node reacts to: the bootstrap reconnection, the `open` event of an
outbound socket it requested, and the receipt of a record over a socket. -/
inductive Event where
  | bootstrap
  | opened (d : Dial) (handle : Nat)
  | received (socket : WebSocket) (data : Frame)
  deriving DecidableEq, Repr

/-- One protocol step. An `open` event for a socket that was not requested changes
nothing. -/
def protocolStep (uuid3 : String → String) (inUse : List String → Bool) (s : P2PServer) :
    Event → Except JsError P2PServer
  | .bootstrap => connect_to_online_peers uuid3 inUse s
  | .opened d handle =>
    if d ∈ s.dials then .ok (socketOpened s d { handle := handle, readyState := .OPEN })
    else .ok s
  | .received socket data => messageHandler s socket data

/-- A sequence of protocol steps, oldest first. -/
def runProtocol (uuid3 : String → String) (inUse : List String → Bool) :
    P2PServer → List Event → Except JsError P2PServer
  | s, [] => .ok s
  | s, e :: es =>
    match protocolStep uuid3 inUse s e with
    | .error err => .error err
    | .ok s1 => runProtocol uuid3 inUse s1 es

/-! ## Properties stated about the registry -/

/-- The identifiers recorded in a registry, in order. -/
def ids (peers : List PeerRecord) : List String :=
  peers.map PeerRecord.UUID

/-- At most one record per identifier. -/
def UniqueIds (peers : List PeerRecord) : Prop :=
  (ids peers).Nodup

instance (peers : List PeerRecord) : Decidable (UniqueIds peers) := by
  unfold UniqueIds; infer_instance

/-! ## Sample states -/

/-- A stand-in for `uuid3` on which the examples are evaluated. -/
def sampleUuid3 (name : String) : String :=
  "uuid3:" ++ name

/-- The record of the node listening on `ws://127.0.0.1:8080`. -/
def recordX : PeerRecord :=
  { UUID := sampleUuid3 "ws://127.0.0.1:8080", URL := "ws://127.0.0.1:8080" }

/-- The record of the node listening on `ws://127.0.0.1:8081`. -/
def recordY : PeerRecord :=
  { UUID := sampleUuid3 "ws://127.0.0.1:8081", URL := "ws://127.0.0.1:8081" }

/-- The record of the node listening on `ws://127.0.0.1:8082`. -/
def recordZ : PeerRecord :=
  { UUID := sampleUuid3 "ws://127.0.0.1:8082", URL := "ws://127.0.0.1:8082" }

/-- Node X right after it launched a new network: its registry holds its own record. -/
def serverX : P2PServer :=
  { construct sampleUuid3 "localhost" "8080" (some [recordX]) with peers := [recordX] }

/-- Node X with Y registered and no socket: Y is a registered peer that is not connected. -/
def serverXY : P2PServer :=
  { serverX with peers := [recordX, recordY], database := some [recordX, recordY] }

/-- An open socket. -/
def socket1 : WebSocket :=
  { handle := 1, readyState := .OPEN }

/-- Another open socket. -/
def socket2 : WebSocket :=
  { handle := 2, readyState := .OPEN }

/-- Node X with Y registered and an open socket stored under the identifier of Y. -/
def serverXYonline : P2PServer :=
  { serverXY with sockets := [{ UUID := recordY.UUID, socket := socket1 }] }

/-- Node X with Y and Z registered, Z connected over `socket1`, Y not connected. -/
def serverXYZ : P2PServer :=
  { serverX with
    peers := [recordX, recordY, recordZ]
    database := some [recordX, recordY, recordZ]
    sockets := [{ UUID := recordZ.UUID, socket := socket1 }] }

/-- Node Y before its first bootstrap: no registry yet. -/
def serverYfresh : P2PServer :=
  construct sampleUuid3 "localhost" "8081" none

/-- Node Y restarted: its registry file holds X and Y, and it has no socket. -/
def serverYback : P2PServer :=
  construct sampleUuid3 "localhost" "8081" (some [recordX, recordY])

/-- The outbound socket that Y requests towards X during the bootstrap reconnection. -/
def dialX : Dial :=
  { URL := recordX.URL, UUID := sampleUuid3 recordX.URL, greeting := .TARGET_CONNECTION }

/-- An outbound socket towards the address of Y, to be greeted with `ADMITTANCE`. -/
def dialY : Dial :=
  { URL := recordY.URL, UUID := recordY.UUID, greeting := .ADMITTANCE }

/-! ## Lemmas on the merge loop -/

theorem any_UUID_iff (peers : List PeerRecord) (u : String) :
    peers.any (fun peer => peer.UUID == u) = true ↔ u ∈ ids peers := by
  simp only [ids, List.any_eq_true, List.mem_map, beq_iff_eq]

theorem storeNonRecorded_nil (peers : List PeerRecord) : storeNonRecorded peers [] = peers :=
  rfl

theorem storeNonRecorded_cons (peers D : List PeerRecord) (x : PeerRecord) :
    storeNonRecorded peers (x :: D) =
      storeNonRecorded
        (if !(peers.any (fun peer => peer.UUID == x.UUID)) then peers ++ [x] else peers) D :=
  rfl

theorem storeNonRecorded_cons_known (peers D : List PeerRecord) (x : PeerRecord)
    (h : x.UUID ∈ ids peers) : storeNonRecorded peers (x :: D) = storeNonRecorded peers D := by
  have h1 : peers.any (fun peer => peer.UUID == x.UUID) = true := (any_UUID_iff peers x.UUID).2 h
  rw [storeNonRecorded_cons, h1]
  rfl

theorem storeNonRecorded_cons_fresh (peers D : List PeerRecord) (x : PeerRecord)
    (h : x.UUID ∉ ids peers) :
    storeNonRecorded peers (x :: D) = storeNonRecorded (peers ++ [x]) D := by
  have h1 : peers.any (fun peer => peer.UUID == x.UUID) = false := by
    cases hb : peers.any (fun peer => peer.UUID == x.UUID)
    · rfl
    · exact absurd ((any_UUID_iff peers x.UUID).1 hb) h
  rw [storeNonRecorded_cons, h1]
  rfl

theorem ids_append (P Q : List PeerRecord) : ids (P ++ Q) = ids P ++ ids Q := by
  simp [ids]

/-- When every incoming identifier is recorded already, the loop changes nothing. -/
theorem storeNonRecorded_all_known (D peers : List PeerRecord)
    (h : ∀ x ∈ D, x.UUID ∈ ids peers) : storeNonRecorded peers D = peers := by
  induction D with
  | nil => rfl
  | cons x D ih =>
    rw [storeNonRecorded_cons_known peers D x (h x (List.mem_cons_self x D))]
    exact ih (fun y hy => h y (List.mem_cons_of_mem x hy))

/-- The shape of the result of the loop: the old registry, followed by the first
occurrence of every identifier of `D` that was not recorded. -/
theorem storeNonRecorded_shape (D : List PeerRecord) :
    ∀ peers : List PeerRecord, ∃ A : List PeerRecord,
      storeNonRecorded peers D = peers ++ A ∧
      A.Sublist D ∧
      (ids A).Nodup ∧
      (∀ x ∈ A, x.UUID ∉ ids peers ∧ D.find? (fun y => y.UUID == x.UUID) = some x) ∧
      (∀ x ∈ D, x.UUID ∉ ids peers → x.UUID ∈ ids A) := by
  induction D with
  | nil =>
    intro peers
    exact ⟨[], by simp [storeNonRecorded], List.Sublist.refl _, List.nodup_nil,
      by simp, by simp⟩
  | cons x D ih =>
    intro peers
    by_cases hx : x.UUID ∈ ids peers
    · obtain ⟨A, hA, hsub, hnd, hfirst, hall⟩ := ih peers
      refine ⟨A, ?_, hsub.cons x, hnd, ?_, ?_⟩
      · rw [storeNonRecorded_cons_known peers D x hx, hA]
      · intro y hy
        obtain ⟨hy1, hy2⟩ := hfirst y hy
        refine ⟨hy1, ?_⟩
        have hne : ¬ x.UUID = y.UUID := fun he => hy1 (he ▸ hx)
        simp [List.find?_cons, hne, hy2]
      · intro z hz hzn
        rcases List.mem_cons.1 hz with rfl | hz
        · exact absurd hx hzn
        · exact hall z hz hzn
    · obtain ⟨A, hA, hsub, hnd, hfirst, hall⟩ := ih (peers ++ [x])
      have hxA : x.UUID ∉ ids A := by
        intro hmem
        obtain ⟨y, hy, hyx⟩ := List.mem_map.1 hmem
        have := (hfirst y hy).1
        rw [ids_append] at this
        exact this (List.mem_append_right _ (by simp [ids, hyx]))
      refine ⟨x :: A, ?_, hsub.cons₂ x, ?_, ?_, ?_⟩
      · rw [storeNonRecorded_cons_fresh peers D x hx, hA]
        simp
      · simpa [ids] using And.intro hxA hnd
      · intro y hy
        rcases List.mem_cons.1 hy with rfl | hy
        · exact ⟨hx, by simp [List.find?_cons]⟩
        · obtain ⟨hy1, hy2⟩ := hfirst y hy
          rw [ids_append] at hy1
          have hne : ¬ x.UUID = y.UUID := fun he =>
            hy1 (List.mem_append_right _ (by simp [ids, he]))
          exact ⟨fun hm => hy1 (List.mem_append_left _ hm),
            by simp [List.find?_cons, hne, hy2]⟩
      · intro z hz hzn
        by_cases hzx : z.UUID = x.UUID
        · simp [ids, hzx]
        · rcases List.mem_cons.1 hz with rfl | hz
          · exact absurd rfl hzx
          · have : z.UUID ∉ ids (peers ++ [x]) := by
              rw [ids_append]
              intro hm
              rcases List.mem_append.1 hm with hm | hm
              · exact hzn hm
              · simp [ids] at hm
                exact hzx hm
            have := hall z hz this
            simp only [ids, List.map_cons, List.mem_cons]
            exact Or.inr this

/-- Every identifier of `D` is recorded after the loop. -/
theorem storeNonRecorded_covers (peers D : List PeerRecord) :
    ∀ x ∈ D, x.UUID ∈ ids (storeNonRecorded peers D) := by
  obtain ⟨A, hA, -, -, -, hall⟩ := storeNonRecorded_shape D peers
  intro x hx
  rw [hA, ids_append]
  by_cases h : x.UUID ∈ ids peers
  · exact List.mem_append_left _ h
  · exact List.mem_append_right _ (hall x hx h)

/-- What `updatePeersDatabase` does on a node whose registry file holds `P`. -/
theorem updatePeersDatabase_loaded (s : P2PServer) (P D : List PeerRecord)
    (h : s.database = some P) :
    updatePeersDatabase s D =
      .ok { s with peers := storeNonRecorded P D, database := some (storeNonRecorded P D) } := by
  simp [updatePeersDatabase, loadPeersDatabase, writeOnDatabase, h]

/-! ## The registry merge -/

/-- C1. Registry merge is idempotent. On a node whose registry file holds `P`,
`updatePeersDatabase` with the incoming list `D` returns a node `s1` whose registry is the
merge of `D` into `P`, and `updatePeersDatabase` with the same `D` on `s1` returns `s1`
again: the second merge changes neither the registry file nor any field of the node. -/
theorem updatePeersDatabase_idempotent (s : P2PServer) (P D : List PeerRecord)
    (h : s.database = some P) :
    ∃ s1 : P2PServer,
      updatePeersDatabase s D = .ok s1 ∧
      s1.database = some (storeNonRecorded P D) ∧
      updatePeersDatabase s1 D = .ok s1 := by
  refine ⟨{ s with peers := storeNonRecorded P D, database := some (storeNonRecorded P D) },
    updatePeersDatabase_loaded s P D h, rfl, ?_⟩
  rw [updatePeersDatabase_loaded _ (storeNonRecorded P D) D rfl]
  rw [storeNonRecorded_all_known D (storeNonRecorded P D) (storeNonRecorded_covers P D)]

/-- The statement of C1 at node X, merging the single record of Y twice. -/
theorem updatePeersDatabase_idempotent_witness :
    serverX.database = some [recordX] ∧
    ∃ s1 : P2PServer,
      updatePeersDatabase serverX [recordY] = .ok s1 ∧
      s1.database = some (storeNonRecorded [recordX] [recordY]) ∧
      updatePeersDatabase s1 [recordY] = .ok s1 :=
  ⟨rfl, updatePeersDatabase_idempotent serverX [recordX] [recordY] rfl⟩

/-- C2. Registry merge is an additive union keyed by identifier that never overwrites. On
a node whose registry file holds `P`, `updatePeersDatabase` with `D` returns a node whose
registry (file and `this.peers`) is `P ++ A`: `P` is kept as it is, and the appended list
`A` is a sublist of `D` (records of `D`, in the order of `D`) without repeated identifier,
each record of `A` has an identifier absent from `P` and is the first record of `D` with
that identifier, and every identifier of `D` absent from `P` occurs in `A`. -/
theorem updatePeersDatabase_additive_union (s : P2PServer) (P D : List PeerRecord)
    (h : s.database = some P) :
    ∃ (s1 : P2PServer) (A : List PeerRecord),
      updatePeersDatabase s D = .ok s1 ∧
      s1.database = some (P ++ A) ∧
      s1.peers = P ++ A ∧
      A.Sublist D ∧
      (ids A).Nodup ∧
      (∀ x ∈ A, x.UUID ∉ ids P ∧ D.find? (fun y => y.UUID == x.UUID) = some x) ∧
      (∀ x ∈ D, x.UUID ∉ ids P → x.UUID ∈ ids A) := by
  obtain ⟨A, hA, hsub, hnd, hfirst, hall⟩ := storeNonRecorded_shape D P
  refine ⟨{ s with peers := storeNonRecorded P D, database := some (storeNonRecorded P D) }, A,
    updatePeersDatabase_loaded s P D h, ?_, ?_, hsub, hnd, hfirst, hall⟩
  · simp [hA]
  · simp [hA]

/-- The statement of C2 at node X, with an incoming list that carries the identifier of X
under another address and the identifier of Y twice. -/
theorem updatePeersDatabase_additive_union_witness :
    serverX.database = some [recordX] ∧
    ∃ (s1 : P2PServer) (A : List PeerRecord),
      updatePeersDatabase serverX
          [{ UUID := recordX.UUID, URL := "ws://10.0.0.1:1" }, recordY,
            { UUID := recordY.UUID, URL := "ws://10.0.0.2:2" }] = .ok s1 ∧
      s1.database = some ([recordX] ++ A) ∧
      s1.peers = [recordX] ++ A ∧
      A.Sublist
          [{ UUID := recordX.UUID, URL := "ws://10.0.0.1:1" }, recordY,
            { UUID := recordY.UUID, URL := "ws://10.0.0.2:2" }] ∧
      (ids A).Nodup ∧
      (∀ x ∈ A, x.UUID ∉ ids [recordX] ∧
        List.find? (fun y => y.UUID == x.UUID)
          [{ UUID := recordX.UUID, URL := "ws://10.0.0.1:1" }, recordY,
            { UUID := recordY.UUID, URL := "ws://10.0.0.2:2" }] = some x) ∧
      (∀ x ∈ [{ UUID := recordX.UUID, URL := "ws://10.0.0.1:1" }, recordY,
            { UUID := recordY.UUID, URL := "ws://10.0.0.2:2" }],
        x.UUID ∉ ids [recordX] → x.UUID ∈ ids A) :=
  ⟨rfl, updatePeersDatabase_additive_union serverX [recordX] _ rfl⟩

/-- C3. Uniqueness invariant of the registry under merge. If the registry file holds `P`
with at most one record per identifier, then `updatePeersDatabase` with any incoming list
`D` returns a node whose registry (file and `this.peers`) has at most one record per
identifier. -/
theorem updatePeersDatabase_preserves_UniqueIds (s : P2PServer) (P D : List PeerRecord)
    (h : s.database = some P) (hu : UniqueIds P) :
    ∃ (s1 : P2PServer) (Q : List PeerRecord),
      updatePeersDatabase s D = .ok s1 ∧
      s1.database = some Q ∧
      s1.peers = Q ∧
      UniqueIds Q := by
  obtain ⟨A, hA, -, hnd, hfirst, -⟩ := storeNonRecorded_shape D P
  refine ⟨{ s with peers := storeNonRecorded P D, database := some (storeNonRecorded P D) },
    storeNonRecorded P D, updatePeersDatabase_loaded s P D h, rfl, rfl, ?_⟩
  unfold UniqueIds at hu ⊢
  rw [hA, ids_append, List.nodup_append]
  refine ⟨hu, hnd, ?_⟩
  intro u hu1 hu2
  obtain ⟨y, hy, rfl⟩ := List.mem_map.1 hu2
  exact (hfirst y hy).1 hu1

/-- The statement of C3 at node X, with an incoming list that repeats the identifier of Y
and carries the identifier of X. -/
theorem updatePeersDatabase_preserves_UniqueIds_witness :
    serverX.database = some [recordX] ∧ UniqueIds [recordX] ∧
    ∃ (s1 : P2PServer) (Q : List PeerRecord),
      updatePeersDatabase serverX
          [recordY, { UUID := recordY.UUID, URL := "ws://10.0.0.2:2" },
            { UUID := recordX.UUID, URL := "ws://10.0.0.1:1" }] = .ok s1 ∧
      s1.database = some Q ∧
      s1.peers = Q ∧
      UniqueIds Q :=
  ⟨rfl, by decide,
    updatePeersDatabase_preserves_UniqueIds serverX [recordX] _ rfl (by decide)⟩

/-! ## The message router -/

/-- A recipient whose identifier is recorded in `this.peers` makes `send_MESSAGE` call
`this.find_opensocket_by_URL`, which is not a function: the call throws, whatever the
sockets are. -/
theorem send_MESSAGE_registered (uuid3 : String → String) (s : P2PServer)
    (recipientURL message : String)
    (h : uuid3 (jsReplace recipientURL "localhost" "127.0.0.1") ∈ ids s.peers) :
    send_MESSAGE uuid3 s recipientURL message = .error .typeError := by
  have h1 := (any_UUID_iff s.peers _).2 h
  simp [send_MESSAGE, h1, find_opensocket_by_URL]

/-- C4. When no record of `this.peers` has the identifier derived from the recipient
address with `localhost` replaced by `127.0.0.1`, `send_MESSAGE` returns `NON_EXISTENT`
and the node is as before: no frame is handed to a socket and the logs of sent and of
received messages are unchanged. -/
theorem send_MESSAGE_non_existent (uuid3 : String → String) (s : P2PServer)
    (recipientURL message : String)
    (h : ∀ peer ∈ s.peers, peer.UUID ≠ uuid3 (jsReplace recipientURL "localhost" "127.0.0.1")) :
    send_MESSAGE uuid3 s recipientURL message = .ok ("NON_EXISTENT", s) := by
  have h1 : s.peers.any
      (fun peer => peer.UUID == uuid3 (jsReplace recipientURL "localhost" "127.0.0.1")) = false := by
    rw [List.any_eq_false]
    intro peer hp
    simpa using h peer hp
  simp [send_MESSAGE, h1]

/-- The statement of C4 at node X and the address of the unregistered node Z. -/
theorem send_MESSAGE_non_existent_witness :
    (∀ peer ∈ serverX.peers,
      peer.UUID ≠ sampleUuid3 (jsReplace "ws://localhost:8082" "localhost" "127.0.0.1")) ∧
    send_MESSAGE sampleUuid3 serverX "ws://localhost:8082" "hello" =
      .ok ("NON_EXISTENT", serverX) :=
  ⟨by decide, send_MESSAGE_non_existent sampleUuid3 serverX "ws://localhost:8082" "hello"
    (by decide)⟩

/-- C5, the code at the failing input. Y is registered at node X and `this.sockets` is
empty: `send_MESSAGE` to the address of Y throws a `TypeError` where `NOT_ONLINE` is due. -/
theorem send_MESSAGE_not_online_throws :
    recordY.UUID ∈ ids serverXY.peers ∧
    getOpenSockets serverXY = [] ∧
    send_MESSAGE sampleUuid3 serverXY "ws://localhost:8081" "hello" = .error .typeError := by
  refine ⟨by decide, by decide, ?_⟩
  exact send_MESSAGE_registered sampleUuid3 serverXY "ws://localhost:8081" "hello" (by decide)

/-- C6, the code at the failing input. Y is registered at node X and an open socket is
stored under the identifier of Y: `send_MESSAGE` to the address of Y throws a `TypeError`,
so no `MESSAGE` record is sent and `SUCCESS` is not returned. -/
theorem send_MESSAGE_online_throws :
    recordY.UUID ∈ ids serverXYonline.peers ∧
    getOpenSockets serverXYonline = [{ UUID := recordY.UUID, socket := socket1 }] ∧
    send_MESSAGE sampleUuid3 serverXYonline "ws://127.0.0.1:8081" "hello" =
      .error .typeError := by
  refine ⟨by decide, by decide, ?_⟩
  exact send_MESSAGE_registered sampleUuid3 serverXYonline "ws://127.0.0.1:8081" "hello"
    (by decide)

/-- The `MESSAGE` case of the handler prepends one entry `{sender, message}` to the log of
received messages and changes nothing else. -/
theorem messageHandler_MESSAGE (s : P2PServer) (socket : WebSocket) (sender message : String) :
    messageHandler s socket (.MESSAGE sender message) =
      .ok { s with
        receivedMessages := { sender := sender, message := message } :: s.receivedMessages } :=
  rfl

/-- C7 as stated fails. The address `127.0.0.1:8080` is that of node X itself: the route
answers `FAILED_TO_DEPART`, not `SELF_SEND`, and `send_MESSAGE` throws. The address
`localhost:8080` normalizes to the address of X as well, is not caught by the route, and
`send_MESSAGE` throws. -/
theorem self_send_counterexample :
    jsReplace ("ws://" ++ "127.0.0.1:8080") "localhost" "127.0.0.1" = serverX.URL ∧
    postSend sampleUuid3 serverX "127.0.0.1:8080" "hello" = .ok ("FAILED_TO_DEPART", serverX) ∧
    ¬ (∃ s1, postSend sampleUuid3 serverX "127.0.0.1:8080" "hello" = .ok ("SELF_SEND", s1)) ∧
    send_MESSAGE sampleUuid3 serverX "ws://127.0.0.1:8080" "hello" = .error .typeError ∧
    jsReplace ("ws://" ++ "localhost:8080") "localhost" "127.0.0.1" = serverX.URL ∧
    postSend sampleUuid3 serverX "localhost:8080" "hello" = .error .typeError := by
  have h1 : postSend sampleUuid3 serverX "127.0.0.1:8080" "hello" =
      .ok ("FAILED_TO_DEPART", serverX) := by rfl
  refine ⟨by decide, h1, ?_, ?_, by decide, ?_⟩
  · rintro ⟨s1, hs1⟩
    rw [h1] at hs1
    simp at hs1
  · exact send_MESSAGE_registered sampleUuid3 serverX "ws://127.0.0.1:8080" "hello" (by decide)
  · have h2 : postSend sampleUuid3 serverX "localhost:8080" "hello" =
        send_MESSAGE sampleUuid3 serverX ("ws://" ++ "localhost:8080") "hello" := by rfl
    rw [h2]
    exact send_MESSAGE_registered sampleUuid3 serverX _ "hello" (by decide)

/-- C7, amended. When `"ws://" + recipientURL` is the address of the node, character for
character, the route `POST /send` answers `FAILED_TO_DEPART` without calling
`send_MESSAGE`: no frame is handed to a socket and the logs of sent and of received
messages are unchanged. -/
theorem postSend_self (uuid3 : String → String) (s : P2PServer) (recipientURL message : String)
    (h : s.URL = "ws://" ++ recipientURL) :
    postSend uuid3 s recipientURL message = .ok ("FAILED_TO_DEPART", s) := by
  simp [postSend, h]

/-- The statement of amended C7 at node X. -/
theorem postSend_self_witness :
    serverX.URL = "ws://" ++ "127.0.0.1:8080" ∧
    postSend sampleUuid3 serverX "127.0.0.1:8080" "hello" = .ok ("FAILED_TO_DEPART", serverX) :=
  ⟨by decide, postSend_self sampleUuid3 serverX "127.0.0.1:8080" "hello" (by decide)⟩

/-! ## Online peers -/

/-- The loop of `getOnlinePeers` never pushes: the test reads `readyState` off the element
of `this.sockets`, which is `undefined`. -/
theorem getOnlinePeers_only_self (uuid3 : String → String) (s : P2PServer) :
    getOnlinePeers uuid3 s = [{ UUID := s.UUID, URL := s.URL }] := by
  unfold getOnlinePeers
  generalize s.peers = peers
  generalize ([{ UUID := s.UUID, URL := s.URL }] : List PeerRecord) = acc
  induction peers generalizing acc with
  | nil => rfl
  | cons peer peers ih =>
    rw [List.foldl_cons]
    cases findsocket_by_URL uuid3 s peer.URL with
    | none => exact ih acc
    | some socket => simpa [SocketEntry.readyState] using ih acc

/-- C8, the code at the failing input. Y is registered at node X and the socket stored
under the identifier of Y is open, yet `getOnlinePeers` lists X alone. -/
theorem getOnlinePeers_misses_open_peer :
    recordY ∈ serverXYonline.peers ∧
    (findsocket_by_URL sampleUuid3 serverXYonline recordY.URL).map
      (fun x => x.socket.readyState) = some .OPEN ∧
    getOnlinePeers sampleUuid3 serverXYonline = [recordX] := by
  refine ⟨by decide, by decide, ?_⟩
  rw [getOnlinePeers_only_self]
  decide

/-! ## The handler of `TARGET_CONNECTION` -/

/-- A broadcast loop hands `frame` to the open sockets of the list, in order, and changes
nothing else. -/
theorem broadcast_foldl (frame : Frame) (L : List SocketEntry) :
    ∀ s : P2PServer,
      L.foldl (fun s x => if x.socket.readyState = .OPEN then socketSend s x.socket frame else s) s =
        { s with
          wire := s.wire ++
            (L.filter (fun x => x.socket.readyState = .OPEN)).map (fun x => (x.socket, frame)) } := by
  induction L with
  | nil => intro s; simp
  | cons x L ih =>
    intro s
    rw [List.foldl_cons]
    by_cases hx : x.socket.readyState = .OPEN
    · rw [if_pos hx, ih]
      simp [socketSend, hx]
    · rw [if_neg hx, ih]
      simp [hx]

theorem broadcastNewPeer_eq (s : P2PServer) (peer : PeerRecord) :
    broadcastNewPeer s peer =
      { s with
        wire := s.wire ++ (getOpenSockets s).map (fun x => (x.socket, Frame.NEW_PEER peer)) } :=
  broadcast_foldl (.NEW_PEER peer) s.sockets s

theorem broadcastReconnectedPeer_eq (s : P2PServer) (peer : PeerRecord) :
    broadcastReconnectedPeer s peer =
      { s with
        wire := s.wire ++
          (getOpenSockets s).map (fun x => (x.socket, Frame.RECONNECTED_PEER peer)) } :=
  broadcast_foldl (.RECONNECTED_PEER peer) s.sockets s

/-- The handler of `TARGET_CONNECTION` when the identifier of the sender is recorded. -/
theorem messageHandler_TARGET_CONNECTION_known (s : P2PServer) (socket : WebSocket)
    (remote_UUID remoteURL : String) (P : List PeerRecord) (h : s.database = some P)
    (hk : remote_UUID ∈ ids P) :
    messageHandler s socket (.TARGET_CONNECTION remote_UUID remoteURL) =
      .ok { s with
        peers := P
        sockets := s.sockets ++ [{ UUID := remote_UUID, socket := socket }] ++
          [{ UUID := remote_UUID, socket := socket }]
        wire := s.wire ++ (socket, Frame.PEERS_DATABASE P) ::
          (List.filter (fun x : SocketEntry => x.socket.readyState = .OPEN)
              (s.sockets ++ [{ UUID := remote_UUID, socket := socket }])).map
            (fun x => (x.socket, Frame.RECONNECTED_PEER { UUID := remote_UUID, URL := remoteURL })) } := by
  have h1 := (any_UUID_iff P remote_UUID).2 hk
  simp only [messageHandler, loadPeersDatabase, h, h1, if_true, broadcastReconnectedPeer_eq,
    getOpenSockets, send_PEERS_DATABASE, socketSend]
  simp

/-- The handler of `TARGET_CONNECTION` when the identifier of the sender is not recorded. -/
theorem messageHandler_TARGET_CONNECTION_unknown (s : P2PServer) (socket : WebSocket)
    (remote_UUID remoteURL : String) (P : List PeerRecord) (h : s.database = some P)
    (hk : remote_UUID ∉ ids P) :
    messageHandler s socket (.TARGET_CONNECTION remote_UUID remoteURL) =
      .ok { s with
        peers := P ++ [{ UUID := remote_UUID, URL := remoteURL }]
        database := some (P ++ [{ UUID := remote_UUID, URL := remoteURL }])
        sockets := s.sockets ++ [{ UUID := remote_UUID, socket := socket }]
        wire := s.wire ++
          (socket, Frame.PEERS_DATABASE (P ++ [{ UUID := remote_UUID, URL := remoteURL }])) ::
          (s.sockets.filter (fun x => x.socket.readyState = .OPEN)).map
            (fun x => (x.socket, Frame.NEW_PEER { UUID := remote_UUID, URL := remoteURL })) } := by
  have h1 : P.any (fun peer => peer.UUID == remote_UUID) = false := by
    cases hb : P.any (fun peer => peer.UUID == remote_UUID)
    · rfl
    · exact absurd ((any_UUID_iff P remote_UUID).1 hb) hk
  have h2 : storeNonRecorded P [{ UUID := remote_UUID, URL := remoteURL }] =
      P ++ [{ UUID := remote_UUID, URL := remoteURL }] := by
    rw [storeNonRecorded_cons_fresh P [] _ hk]
    rfl
  simp only [messageHandler, loadPeersDatabase, h, h1, updatePeersDatabase, writeOnDatabase, h2,
    broadcastNewPeer_eq, getOpenSockets, send_PEERS_DATABASE, socketSend]
  simp

/-- C9. On receipt of `TARGET_CONNECTION` at a node whose registry file holds `P`, the
handler takes its path by membership of the sender identifier in `P`. If it is recorded,
the registry file still holds `P`, and the frames sent are `PEERS_DATABASE` with `P` to the
sender followed by `RECONNECTED_PEER` announcements only. If it is not recorded, the
registry file holds `P` with the record of the sender appended, and the frames sent are
`PEERS_DATABASE` with that updated registry to the sender followed by `NEW_PEER`
announcements only. -/
theorem messageHandler_TARGET_CONNECTION_paths (s : P2PServer) (socket : WebSocket)
    (remote_UUID remoteURL : String) (P : List PeerRecord) (h : s.database = some P) :
    (remote_UUID ∈ ids P →
      ∃ (s1 : P2PServer) (targets : List WebSocket),
        messageHandler s socket (.TARGET_CONNECTION remote_UUID remoteURL) = .ok s1 ∧
        s1.database = some P ∧
        s1.wire = s.wire ++ (socket, Frame.PEERS_DATABASE P) ::
          targets.map
            (fun t => (t, Frame.RECONNECTED_PEER { UUID := remote_UUID, URL := remoteURL }))) ∧
    (remote_UUID ∉ ids P →
      ∃ (s1 : P2PServer) (targets : List WebSocket),
        messageHandler s socket (.TARGET_CONNECTION remote_UUID remoteURL) = .ok s1 ∧
        s1.database = some (P ++ [{ UUID := remote_UUID, URL := remoteURL }]) ∧
        s1.wire = s.wire ++
          (socket, Frame.PEERS_DATABASE (P ++ [{ UUID := remote_UUID, URL := remoteURL }])) ::
          targets.map
            (fun t => (t, Frame.NEW_PEER { UUID := remote_UUID, URL := remoteURL }))) := by
  constructor
  · intro hk
    refine ⟨_, (List.filter (fun x : SocketEntry => x.socket.readyState = .OPEN)
        (s.sockets ++ [{ UUID := remote_UUID, socket := socket }])).map SocketEntry.socket,
      messageHandler_TARGET_CONNECTION_known s socket remote_UUID remoteURL P h hk, h, ?_⟩
    simp [List.map_map, Function.comp_def]
  · intro hk
    refine ⟨_, (s.sockets.filter (fun x => x.socket.readyState = .OPEN)).map SocketEntry.socket,
      messageHandler_TARGET_CONNECTION_unknown s socket remote_UUID remoteURL P h hk, rfl, ?_⟩
    simp [List.map_map, Function.comp_def]

/-- The statement of C9 at node X: Y, recorded, reconnects over `socket2` while Z is
connected; and Z, not recorded, connects over `socket2` while Y is connected. -/
theorem messageHandler_TARGET_CONNECTION_paths_witness :
    serverXYZ.database = some [recordX, recordY, recordZ] ∧
    recordY.UUID ∈ ids [recordX, recordY, recordZ] ∧
    (∃ (s1 : P2PServer) (targets : List WebSocket),
      messageHandler serverXYZ socket2 (.TARGET_CONNECTION recordY.UUID recordY.URL) = .ok s1 ∧
      s1.database = some [recordX, recordY, recordZ] ∧
      s1.wire = serverXYZ.wire ++
        (socket2, Frame.PEERS_DATABASE [recordX, recordY, recordZ]) ::
        targets.map
          (fun t => (t, Frame.RECONNECTED_PEER { UUID := recordY.UUID, URL := recordY.URL }))) ∧
    serverXYonline.database = some [recordX, recordY] ∧
    recordZ.UUID ∉ ids [recordX, recordY] ∧
    (∃ (s1 : P2PServer) (targets : List WebSocket),
      messageHandler serverXYonline socket2 (.TARGET_CONNECTION recordZ.UUID recordZ.URL) =
        .ok s1 ∧
      s1.database =
        some ([recordX, recordY] ++ [{ UUID := recordZ.UUID, URL := recordZ.URL }]) ∧
      s1.wire = serverXYonline.wire ++
        (socket2, Frame.PEERS_DATABASE
          ([recordX, recordY] ++ [{ UUID := recordZ.UUID, URL := recordZ.URL }])) ::
        targets.map
          (fun t => (t, Frame.NEW_PEER { UUID := recordZ.UUID, URL := recordZ.URL }))) :=
  ⟨rfl, by decide,
    (messageHandler_TARGET_CONNECTION_paths serverXYZ socket2 recordY.UUID recordY.URL
      [recordX, recordY, recordZ] rfl).1 (by decide),
    rfl, by decide,
    (messageHandler_TARGET_CONNECTION_paths serverXYonline socket2 recordZ.UUID recordZ.URL
      [recordX, recordY] rfl).2 (by decide)⟩

/-- In the path of a sender that is not recorded, the announcement goes to the open
sockets stored before the handler ran: a sender socket that is not stored yet does not
receive `NEW_PEER`. -/
theorem messageHandler_unknown_spares_sender (s : P2PServer) (socket : WebSocket)
    (remote_UUID remoteURL : String) (P : List PeerRecord) (h : s.database = some P)
    (hk : remote_UUID ∉ ids P) (hs : ∀ x ∈ s.sockets, x.socket ≠ socket) :
    ∃ s1 : P2PServer,
      messageHandler s socket (.TARGET_CONNECTION remote_UUID remoteURL) = .ok s1 ∧
      ∀ peer : PeerRecord, (socket, Frame.NEW_PEER peer) ∉ s1.wire.drop s.wire.length := by
  refine ⟨_, messageHandler_TARGET_CONNECTION_unknown s socket remote_UUID remoteURL P h hk, ?_⟩
  intro peer hmem
  simp only [List.drop_left, List.mem_cons, Prod.mk.injEq, List.mem_map, List.mem_filter] at hmem
  rcases hmem with ⟨-, hf⟩ | ⟨x, ⟨hx, -⟩, hxs, -⟩
  · cases hf
  · exact hs x hx hxs

/-- In the path of a recorded sender, the socket of the sender is stored before the
broadcast: when it is open, `RECONNECTED_PEER` is sent over it. -/
theorem messageHandler_known_announces_to_sender (s : P2PServer) (socket : WebSocket)
    (remote_UUID remoteURL : String) (P : List PeerRecord) (h : s.database = some P)
    (hk : remote_UUID ∈ ids P) (ho : socket.readyState = .OPEN) :
    ∃ s1 : P2PServer,
      messageHandler s socket (.TARGET_CONNECTION remote_UUID remoteURL) = .ok s1 ∧
      (socket, Frame.RECONNECTED_PEER { UUID := remote_UUID, URL := remoteURL }) ∈
        s1.wire.drop s.wire.length := by
  refine ⟨_, messageHandler_TARGET_CONNECTION_known s socket remote_UUID remoteURL P h hk, ?_⟩
  simp only [List.drop_left, List.mem_cons, List.mem_map, List.mem_filter, List.mem_append,
    List.mem_singleton]
  exact Or.inr ⟨{ UUID := remote_UUID, socket := socket }, ⟨Or.inr (Or.inl rfl), by simp [ho]⟩, rfl⟩

/-- C10, the code at the failing input. At node X, with Z connected over `socket1`, the
recorded peer Y reconnects over `socket2`, which is not in `this.sockets`. The handler
stores `socket2` before the broadcast and once more after it, and `RECONNECTED_PEER` for Y
is sent over `socket2`, the connection of Y itself. -/
theorem messageHandler_TARGET_CONNECTION_reconnect_trace :
    (∀ x ∈ serverXYZ.sockets, x.socket ≠ socket2) ∧
    messageHandler serverXYZ socket2 (.TARGET_CONNECTION recordY.UUID recordY.URL) =
      .ok { serverXYZ with
        sockets :=
          [{ UUID := recordZ.UUID, socket := socket1 }, { UUID := recordY.UUID, socket := socket2 },
            { UUID := recordY.UUID, socket := socket2 }]
        wire :=
          [(socket2, Frame.PEERS_DATABASE [recordX, recordY, recordZ]),
            (socket1, Frame.RECONNECTED_PEER recordY),
            (socket2, Frame.RECONNECTED_PEER recordY)] } := by
  refine ⟨by decide, ?_⟩
  rfl

/-! ## Self connections -/

/-- The loop of `connect_to_online_peers` keeps `this.URL` and `this.sockets`, and every
outbound socket it requests goes to an address other than `this.URL`. -/
theorem connect_loop_spares_self (uuid3 : String → String) (inUse : List String → Bool)
    (peers : List PeerRecord) :
    ∀ s : P2PServer,
      (peers.foldl
        (fun s peer =>
          match checkActivity inUse peer.URL with
          | none => s
          | some URL =>
            if URL != s.URL then
              { s with
                dials := s.dials ++
                  [{ URL := URL, UUID := uuid3 URL, greeting := .TARGET_CONNECTION }] }
            else s)
        s).URL = s.URL ∧
      (peers.foldl
        (fun s peer =>
          match checkActivity inUse peer.URL with
          | none => s
          | some URL =>
            if URL != s.URL then
              { s with
                dials := s.dials ++
                  [{ URL := URL, UUID := uuid3 URL, greeting := .TARGET_CONNECTION }] }
            else s)
        s).sockets = s.sockets ∧
      ∀ d ∈ (peers.foldl
        (fun s peer =>
          match checkActivity inUse peer.URL with
          | none => s
          | some URL =>
            if URL != s.URL then
              { s with
                dials := s.dials ++
                  [{ URL := URL, UUID := uuid3 URL, greeting := .TARGET_CONNECTION }] }
            else s)
        s).dials, d ∈ s.dials ∨ d.URL ≠ s.URL := by
  induction peers with
  | nil => intro s; exact ⟨rfl, rfl, fun d hd => Or.inl hd⟩
  | cons peer peers ih =>
    intro s
    rw [List.foldl_cons]
    cases hc : checkActivity inUse peer.URL with
    | none => exact ih s
    | some URL =>
      by_cases hu : URL = s.URL
      · have hb : (URL != s.URL) = false := by simp [hu]
        simp only [hb]
        exact ih s
      · have hb : (URL != s.URL) = true := by simp [hu]
        simp only [hb, if_true]
        obtain ⟨h1, h2, h3⟩ := ih
          { s with
            dials := s.dials ++ [{ URL := URL, UUID := uuid3 URL, greeting := .TARGET_CONNECTION }] }
        refine ⟨h1, h2, ?_⟩
        intro d hd
        rcases h3 d hd with hm | hne
        · rcases List.mem_append.1 hm with hm | hm
          · exact Or.inl hm
          · rw [List.mem_singleton] at hm
            subst hm
            exact Or.inr hu
        · exact Or.inr hne

/-- The bootstrap reconnection stores no socket and requests no outbound socket to the
address of the node: the guard `URL !== this.URL` is in place there. -/
theorem connect_to_online_peers_spares_self (uuid3 : String → String)
    (inUse : List String → Bool) (s s1 : P2PServer)
    (h : connect_to_online_peers uuid3 inUse s = .ok s1) :
    s1.sockets = s.sockets ∧ ∀ d ∈ s1.dials, d ∈ s.dials ∨ d.URL ≠ s.URL := by
  unfold connect_to_online_peers at h
  cases hl : loadPeersDatabase s with
  | error e => simp [hl] at h
  | ok s0 =>
    simp only [hl, Except.ok.injEq] at h
    subst h
    have hs0 : s0.URL = s.URL ∧ s0.sockets = s.sockets ∧ s0.dials = s.dials := by
      unfold loadPeersDatabase at hl
      cases hd : s.database with
      | none => simp [hd] at hl
      | some stored =>
        simp only [hd, Except.ok.injEq] at hl
        subst hl
        exact ⟨rfl, rfl, rfl⟩
    obtain ⟨-, h2, h3⟩ := connect_loop_spares_self uuid3 inUse s0.peers s0
    refine ⟨h2.trans hs0.2.1, ?_⟩
    intro d hd
    rcases h3 d hd with hm | hne
    · exact Or.inl (hs0.2.2 ▸ hm)
    · exact Or.inr (hs0.1 ▸ hne)

/-- The handlers of `NEW_PEER` and `RECONNECTED_PEER` have no such guard: a
`RECONNECTED_PEER` record that announces the node itself makes it request an outbound
socket to its own address, and the `open` event of that socket stores it under the
identifier of the node. -/
theorem messageHandler_RECONNECTED_PEER_self (uuid3 : String → String)
    (inUse : List String → Bool) (s : P2PServer) (socket : WebSocket) (handle : Nat) :
    ∃ s1 s2 : P2PServer,
      messageHandler s socket (.RECONNECTED_PEER { UUID := s.UUID, URL := s.URL }) = .ok s1 ∧
      { URL := s.URL, UUID := s.UUID, greeting := .ADMITTANCE } ∈ s1.dials ∧
      protocolStep uuid3 inUse s1
        (.opened { URL := s.URL, UUID := s.UUID, greeting := .ADMITTANCE } handle) = .ok s2 ∧
      { UUID := s.UUID, socket := { handle := handle, readyState := .OPEN } } ∈ s2.sockets := by
  refine ⟨{ s with dials := s.dials ++ [{ URL := s.URL, UUID := s.UUID, greeting := .ADMITTANCE }] },
    socketOpened
      { s with dials := s.dials ++ [{ URL := s.URL, UUID := s.UUID, greeting := .ADMITTANCE }] }
      { URL := s.URL, UUID := s.UUID, greeting := .ADMITTANCE }
      { handle := handle, readyState := .OPEN },
    rfl, by simp, ?_, ?_⟩
  · simp only [protocolStep]
    rw [if_pos (by simp)]
  · simp [socketOpened, send_ADMITTANCE, socketSend]

/-- C11, the code at the failing input. Node Y restarts with the registry `[X, Y]` and no
socket. Its bootstrap reconnection requests a socket to X and skips its own address; once
open, Y sends `TARGET_CONNECTION`. Node X, where Y is recorded, answers over the socket of
Y with `PEERS_DATABASE` and with `RECONNECTED_PEER` for Y. On receipt of these two records
Y requests an outbound socket to its own address, and when that socket opens Y stores it
under its own identifier. -/
theorem reconnecting_node_dials_itself :
    serverYback.sockets = [] ∧
    messageHandler serverXY socket2 (.TARGET_CONNECTION serverYback.UUID serverYback.URL) =
      .ok { serverXY with
        sockets :=
          [{ UUID := recordY.UUID, socket := socket2 }, { UUID := recordY.UUID, socket := socket2 }]
        wire :=
          [(socket2, Frame.PEERS_DATABASE [recordX, recordY]),
            (socket2, Frame.RECONNECTED_PEER recordY)] } ∧
    runProtocol sampleUuid3 (fun _ => true) serverYback
        [.bootstrap, .opened dialX 1, .received socket1 (.PEERS_DATABASE [recordX, recordY]),
          .received socket1 (.RECONNECTED_PEER recordY)] =
      .ok { serverYback with
        peers := [recordX, recordY]
        sockets := [{ UUID := recordX.UUID, socket := socket1 }]
        wire := [(socket1, Frame.TARGET_CONNECTION serverYback.UUID serverYback.URL)]
        dials := [{ URL := serverYback.URL, UUID := serverYback.UUID, greeting := .ADMITTANCE }] } ∧
    runProtocol sampleUuid3 (fun _ => true) serverYback
        [.bootstrap, .opened dialX 1, .received socket1 (.PEERS_DATABASE [recordX, recordY]),
          .received socket1 (.RECONNECTED_PEER recordY), .opened dialY 2] =
      .ok { serverYback with
        peers := [recordX, recordY]
        sockets :=
          [{ UUID := recordX.UUID, socket := socket1 },
            { UUID := serverYback.UUID, socket := socket2 }]
        wire :=
          [(socket1, Frame.TARGET_CONNECTION serverYback.UUID serverYback.URL),
            (socket2, Frame.ADMITTANCE)]
        dials := [] } := by
  refine ⟨rfl, ?_, ?_, ?_⟩
  · rfl
  · rfl
  · rfl

/-! ## The bootstrap handshake -/

/-- C12. Bootstrap handshake. Let the registry file of X hold `P`, with the record of X in
it and no record under the identifier of Y, and let Y have no registry file. Y announces
itself with `TARGET_CONNECTION` carrying its identifier and address. X handles it and
sends `PEERS_DATABASE` with the list `pushed` over the socket of Y; Y handles that record.
Then `pushed` is `P` with the record of Y appended, the registry file of X holds `pushed`,
the registry file that Y created holds `pushed`, and the records of X and of Y are both
in it. -/
theorem bootstrap_handshake (sX sY : P2PServer) (P : List PeerRecord)
    (socketX socketY : WebSocket)
    (hX : sX.database = some P)
    (hself : ({ UUID := sX.UUID, URL := sX.URL } : PeerRecord) ∈ P)
    (hY : sY.UUID ∉ ids P)
    (hnone : sY.database = none) :
    ∃ (sX1 sY1 : P2PServer) (pushed : List PeerRecord),
      (send_TARGET_CONNECTION sY socketY).wire =
        sY.wire ++ [(socketY, Frame.TARGET_CONNECTION sY.UUID sY.URL)] ∧
      messageHandler sX socketX (.TARGET_CONNECTION sY.UUID sY.URL) = .ok sX1 ∧
      (socketX, Frame.PEERS_DATABASE pushed) ∈ sX1.wire.drop sX.wire.length ∧
      messageHandler sY socketY (.PEERS_DATABASE pushed) = .ok sY1 ∧
      pushed = P ++ [{ UUID := sY.UUID, URL := sY.URL }] ∧
      sX1.database = some pushed ∧
      sY1.database = some pushed ∧
      ({ UUID := sX.UUID, URL := sX.URL } : PeerRecord) ∈ pushed ∧
      ({ UUID := sY.UUID, URL := sY.URL } : PeerRecord) ∈ pushed := by
  refine ⟨_, writeOnDatabase sY (P ++ [({ UUID := sY.UUID, URL := sY.URL } : PeerRecord)]),
    P ++ [({ UUID := sY.UUID, URL := sY.URL } : PeerRecord)], rfl,
    messageHandler_TARGET_CONNECTION_unknown sX socketX sY.UUID sY.URL P hX hY, ?_, ?_, rfl, rfl,
    rfl, List.mem_append_left _ hself, List.mem_append_right _ (List.mem_singleton.2 rfl)⟩
  · simp
  · simp [messageHandler, hnone, createPeersDatabase]

/-- The statement of C12 at node X, whose registry holds its own record, and the fresh
node Y. -/
theorem bootstrap_handshake_witness :
    serverX.database = some [recordX] ∧
    ({ UUID := serverX.UUID, URL := serverX.URL } : PeerRecord) ∈ [recordX] ∧
    serverYfresh.UUID ∉ ids [recordX] ∧
    serverYfresh.database = none ∧
    ∃ (sX1 sY1 : P2PServer) (pushed : List PeerRecord),
      (send_TARGET_CONNECTION serverYfresh socket1).wire =
        serverYfresh.wire ++
          [(socket1, Frame.TARGET_CONNECTION serverYfresh.UUID serverYfresh.URL)] ∧
      messageHandler serverX socket2
        (.TARGET_CONNECTION serverYfresh.UUID serverYfresh.URL) = .ok sX1 ∧
      (socket2, Frame.PEERS_DATABASE pushed) ∈ sX1.wire.drop serverX.wire.length ∧
      messageHandler serverYfresh socket1 (.PEERS_DATABASE pushed) = .ok sY1 ∧
      pushed = [recordX] ++ [{ UUID := serverYfresh.UUID, URL := serverYfresh.URL }] ∧
      sX1.database = some pushed ∧
      sY1.database = some pushed ∧
      ({ UUID := serverX.UUID, URL := serverX.URL } : PeerRecord) ∈ pushed ∧
      ({ UUID := serverYfresh.UUID, URL := serverYfresh.URL } : PeerRecord) ∈ pushed :=
  ⟨rfl, by decide, by decide, rfl,
    bootstrap_handshake serverX serverYfresh [recordX] socket2 socket1 rfl (by decide)
      (by decide) rfl⟩

end P2PNetwork
